import Mathlib

/-!
Verification of `scoped_primitive_array.h` (libnativehelper): scope-bound
(RAII) accessors `ScopedArrayRO<JType, kNullable>` and `ScopedArrayRW<JType>`
over the four foreign (JNI) array operations: region-copy, acquire
(`Get*ArrayElements`), release (`Release*ArrayElements`) and length query
(`GetArrayLength`), plus the fatal-error callback.

The embedding models the foreign runtime as an explicit state `JniEnv`
(array store, pin counter, call trace); every trait call appends a `JniCall`
event to the trace, so call counts, order and arguments are observable.
Element values are modelled as `Int`; the element size (`sizeof(JType)`)
is an explicit `Nat` parameter, entering only through the constant
`BUFFER_SIZE = 1024 / sizeof(JType)` (C++ integer division).

The C++ `Traits::fatalError` is `env->FatalError`, which in a real JNI does
not return; the repository's own test mock, however, implements the error
callback as an ordinary returning function (it just sets a flag), and
several spec sentences describe the post-call state of the accessor, so the
model lets `fatalError` return after logging its event.  In
`ScopedArrayRW`'s null-handle branch the C++ constructor assigns neither
`mRawArray` nor `mSize`; the members then hold indeterminate stack values.
The embedding makes those indeterminate initial values explicit parameters
of the constructor.
-/

/-- A foreign-call event, one per trait-table call made by the accessors.
`getArrayElements` records the pointer value it returned, and
`releaseArrayElements` records the pointer, the buffer contents passed back
and the release mode. -/
inductive JniCall where
  | getArrayRegion (h : Option Nat) (start len : Nat)
  | getArrayElements (h : Option Nat) (ret : Nat)
  | releaseArrayElements (h : Option Nat) (p : Nat) (buf : List Int) (mode : Int)
  | getArrayLength (h : Option Nat)
  | fatalErrorCall (msg : String)
deriving DecidableEq, Repr

/-- State of the foreign runtime: the array store (handle id → contents),
a counter producing fresh pin pointer ids, and the trace of calls made so
far (newest first). -/
structure JniEnv where
  arrays : Nat → Option (List Int)
  nextPin : Nat
  trace : List JniCall

/-- Contents behind an (optional) array handle; a missing or null handle
denotes the empty contents. -/
def JniEnv.lookupArr (env : JniEnv) : Option Nat → List Int
  | some i => (env.arrays i).getD []
  | none => []

/-- The JNI release-mode constant `JNI_ABORT` (free the buffer without
copying back). -/
def JNI_ABORT : Int := 2

/-- Foreign region-copy (`Get<Name>ArrayRegion`): returns the copied region
and logs the call; takes no pin. -/
def JniEnv.getArrayRegion (env : JniEnv) (h : Option Nat) (start len : Nat) :
    JniEnv × List Int :=
  ({ env with trace := .getArrayRegion h start len :: env.trace },
   ((env.lookupArr h).drop start).take len)

/-- Foreign acquire (`Get<Name>ArrayElements`): returns a fresh pin pointer
id together with the live contents it points at, and logs the call. -/
def JniEnv.getArrayElements (env : JniEnv) (h : Option Nat) :
    JniEnv × Nat × List Int :=
  ({ env with nextPin := env.nextPin + 1,
              trace := .getArrayElements h env.nextPin :: env.trace },
   env.nextPin, env.lookupArr h)

/-- Foreign release (`Release<Name>ArrayElements`): logs the call; when the
mode is not `JNI_ABORT` the buffer contents are committed back to the array
store. -/
def JniEnv.releaseArrayElements (env : JniEnv) (h : Option Nat) (p : Nat)
    (buf : List Int) (mode : Int) : JniEnv :=
  { env with
    arrays :=
      if mode = JNI_ABORT then env.arrays
      else
        match h with
        | some i => fun j => if j = i then some buf else env.arrays j
        | none => env.arrays,
    trace := .releaseArrayElements h p buf mode :: env.trace }

/-- Foreign length query (`GetArrayLength`): returns the element count and
logs the call. -/
def JniEnv.getArrayLength (env : JniEnv) (h : Option Nat) : JniEnv × Nat :=
  ({ env with trace := .getArrayLength h :: env.trace }, (env.lookupArr h).length)

/-- Fatal-error callback (`FatalError`): logs the call.  A real JNI aborts
here; the repository's test mock returns, and the model follows the mock so
that post-call state is observable. -/
def JniEnv.fatalError (env : JniEnv) (msg : String) : JniEnv :=
  { env with trace := .fatalErrorCall msg :: env.trace }

/-- Number of acquire calls in a trace. -/
def acquires (t : List JniCall) : Nat :=
  t.countP fun c => match c with | .getArrayElements _ _ => true | _ => false

/-- Number of release calls in a trace. -/
def releases (t : List JniCall) : Nat :=
  t.countP fun c => match c with | .releaseArrayElements _ _ _ _ => true | _ => false

/-- Number of fatal-error calls in a trace. -/
def fatals (t : List JniCall) : Nat :=
  t.countP fun c => match c with | .fatalErrorCall _ => true | _ => false

/-- Number of region-copy calls in a trace. -/
def regionCopies (t : List JniCall) : Nat :=
  t.countP fun c => match c with | .getArrayRegion _ _ _ => true | _ => false

/-- Number of length-query calls in a trace. -/
def lengthQueries (t : List JniCall) : Nat :=
  t.countP fun c => match c with | .getArrayLength _ => true | _ => false

/-- Value of an `Int` stored into a 64-bit unsigned field (`size_t`),
read back as a mathematical integer. -/
def usizeOfInt (v : Int) : Int := v % (2 ^ 64)

/-- Value of an `Int` stored into a 64-bit signed field (`ssize_t`),
read back as a mathematical integer (two's-complement wrap). -/
def ssizeOfInt (v : Int) : Int := (v + 2 ^ 63) % (2 ^ 64) - 2 ^ 63

/-- The accessor's size field type `SizeT` is `ssize_t` when `kNullable`
and `size_t` otherwise; storing value `v` yields this representative. -/
def toSizeT (kNullable : Bool) (v : Int) : Int :=
  if kNullable then ssizeOfInt v else usizeOfInt v

/-- Conversion of a stored `SizeT` value to the `size_t` argument of a
foreign call (identity on non-negative in-range values). -/
def usizeToNat (v : Int) : Nat := (v % (2 ^ 64)).toNat

/-- `BUFFER_SIZE = 1024 / sizeof(JType)` (C++ integer division), as the
`jsize` value it is compared against. -/
def BUFFER_SIZE (elemSize : Nat) : Int := ((1024 / elemSize : Nat) : Int)

/-- The read-only accessor's view pointer `mRawArray`: null, the embedded
small buffer `mBuffer`, or a pin returned by acquire. -/
inductive RawPtr where
  | null
  | buffer
  | pin (p : Nat)
deriving DecidableEq, Repr

/-- A C pointer value as produced by `get`, `begin`, `end` (base plus
element offset).  `offNull k` stands for the ill-formed `nullptr + k`
(`k ≠ 0`), which is distinct from the null pointer. -/
inductive CPtr where
  | null
  | toBuffer (off : Int)
  | toPin (p : Nat) (off : Int)
  | offNull (off : Int)
deriving DecidableEq, Repr

/-- Pointer arithmetic for `begin`/`end` (`get() + mSize`). -/
def cptrAdd : CPtr → Int → CPtr
  | .null, k => if k = 0 then .null else .offNull k
  | .toBuffer o, k => .toBuffer (o + k)
  | .toPin p o, k => .toPin p (o + k)
  | .offNull o, k => .offNull (o + k)

/-- State of a `ScopedArrayRO<JType, kNullable>` instance: the template
argument, the members `mJavaArray`, `mRawArray`, `mSize`, and `view`, the
contents of the memory `mRawArray` points at (the embedded buffer on the
copy path, the pinned storage on the pin path; `[]` when null). -/
structure ScopedArrayRO where
  kNullable : Bool
  mJavaArray : Option Nat
  mRawArray : RawPtr
  mSize : Int
  view : List Int
deriving DecidableEq, Repr

/-- Constructor `ScopedArrayRO(JNIEnv*, ArrayType)`: on a null handle store
size `-1` (wrapping in the unsigned `SizeT` when non-nullable) and a null
pointer, calling `fatalError` when non-nullable; on a non-null handle query
the length, then either region-copy into the embedded buffer (length ≤
`BUFFER_SIZE`) or acquire a pin. -/
def ScopedArrayRO.construct (kNullable : Bool) (elemSize : Nat) (env : JniEnv)
    (javaArray : Option Nat) : ScopedArrayRO × JniEnv :=
  match javaArray with
  | none =>
      (⟨kNullable, none, .null, toSizeT kNullable (-1), []⟩,
       if kNullable then env else env.fatalError "javaArray is null")
  | some h =>
      let r1 := env.getArrayLength (some h)
      let sz := toSizeT kNullable (r1.2 : Int)
      if sz ≤ BUFFER_SIZE elemSize then
        let r2 := r1.1.getArrayRegion (some h) 0 (usizeToNat sz)
        (⟨kNullable, some h, .buffer, sz, r2.2⟩, r2.1)
      else
        let r2 := r1.1.getArrayElements (some h)
        (⟨kNullable, some h, .pin r2.2.1, sz, r2.2.2⟩, r2.1)

/-- Destructor `~ScopedArrayRO`: release with `JNI_ABORT` exactly when the
pointer is non-null and is not the embedded buffer, i.e. when it is a pin. -/
def ScopedArrayRO.destruct (a : ScopedArrayRO) (env : JniEnv) : JniEnv :=
  match a.mRawArray with
  | .pin p => env.releaseArrayElements a.mJavaArray p a.view JNI_ABORT
  | _ => env

/-- `get()`: the raw view pointer. -/
def ScopedArrayRO.get (a : ScopedArrayRO) : CPtr :=
  match a.mRawArray with
  | .null => .null
  | .buffer => .toBuffer 0
  | .pin p => .toPin p 0

/-- `getJavaArray()`: the handle supplied at construction. -/
def ScopedArrayRO.getJavaArray (a : ScopedArrayRO) : Option Nat := a.mJavaArray

/-- `operator[](size_t n) const`, i.e. `mRawArray[n]`.  The source performs
no null or bounds check; the embedding guards the dereference and returns
`none` outside the precondition (null pointer or index beyond the view). -/
def ScopedArrayRO.readElem (a : ScopedArrayRO) (n : Nat) : Option Int :=
  match a.mRawArray with
  | .null => none
  | _ => a.view[n]?

/-- `begin()`. -/
def ScopedArrayRO.begin (a : ScopedArrayRO) : CPtr := a.get

/-- `end()`: `get()` itself when nullable and the pointer is null, else
`get() + mSize`. -/
def ScopedArrayRO.endIter (a : ScopedArrayRO) : CPtr :=
  if a.kNullable ∧ a.mRawArray = .null then a.get else cptrAdd a.get a.mSize

/-- `size()`: the stored `SizeT` value. -/
def ScopedArrayRO.size (a : ScopedArrayRO) : Int := a.mSize

/-- The read-write accessor's pointer `mRawArray`: null or a pin (there is
no embedded buffer in `ScopedArrayRW`). -/
inductive RWPtr where
  | null
  | pin (p : Nat)
deriving DecidableEq, Repr

/-- State of a `ScopedArrayRW<JType>` instance: members `mJavaArray`,
`mRawArray`, `mSize`, and `view`, the contents of the pinned storage it
exclusively owns for its scope. -/
structure ScopedArrayRW where
  mJavaArray : Option Nat
  mRawArray : RWPtr
  mSize : Int
  view : List Int
deriving DecidableEq, Repr

/-- Constructor `ScopedArrayRW(JNIEnv*, ArrayType)`: on a null handle it
only calls `fatalError` — the C++ assigns neither `mRawArray` nor `mSize`
there, so the members keep their indeterminate initial values, passed in
here explicitly as `uninitPtr`, `uninitSize`, `uninitView`.  On a non-null
handle it queries the length and unconditionally acquires a pin. -/
def ScopedArrayRW.construct (env : JniEnv) (javaArray : Option Nat)
    (uninitPtr : RWPtr) (uninitSize : Int) (uninitView : List Int) :
    ScopedArrayRW × JniEnv :=
  match javaArray with
  | none =>
      (⟨none, uninitPtr, uninitSize, uninitView⟩,
       env.fatalError "javaArray is null")
  | some h =>
      let r1 := env.getArrayLength (some h)
      let r2 := r1.1.getArrayElements (some h)
      (⟨some h, .pin r2.2.1, (r1.2 : Int), r2.2.2⟩, r2.1)

/-- Destructor `~ScopedArrayRW`: release with mode `0` (writeback) exactly
when the pointer is non-null. -/
def ScopedArrayRW.destruct (a : ScopedArrayRW) (env : JniEnv) : JniEnv :=
  match a.mRawArray with
  | .null => env
  | .pin p => env.releaseArrayElements a.mJavaArray p a.view 0

/-- `get()`: the raw view pointer. -/
def ScopedArrayRW.get (a : ScopedArrayRW) : CPtr :=
  match a.mRawArray with
  | .null => .null
  | .pin p => .toPin p 0

/-- `getJavaArray()`: the handle supplied at construction. -/
def ScopedArrayRW.getJavaArray (a : ScopedArrayRW) : Option Nat := a.mJavaArray

/-- Read `operator[](size_t n)`, i.e. `mRawArray[n]`; guarded as in
`ScopedArrayRO.readElem`. -/
def ScopedArrayRW.readElem (a : ScopedArrayRW) (n : Nat) : Option Int :=
  match a.mRawArray with
  | .null => none
  | _ => a.view[n]?

/-- Write through `operator[](size_t n)` (`mRawArray[n] = v`).  The source
performs no null or bounds check; the embedding guards the store and
returns `none` outside the precondition. -/
def ScopedArrayRW.writeElem (a : ScopedArrayRW) (n : Nat) (v : Int) :
    Option ScopedArrayRW :=
  match a.mRawArray with
  | .null => none
  | .pin _ => if n < a.view.length then some { a with view := a.view.set n v } else none

/-- `begin()`. -/
def ScopedArrayRW.begin (a : ScopedArrayRW) : CPtr := a.get

/-- `end()`: `get() + mSize`. -/
def ScopedArrayRW.endIter (a : ScopedArrayRW) : CPtr := cptrAdd a.get a.mSize

/-- `size()`: the stored `jsize` value. -/
def ScopedArrayRW.size (a : ScopedArrayRW) : Int := a.mSize

/-- One full lifetime of a read-only accessor over handle `j`: construct,
then destruct. -/
def lifecycleRO (kNullable : Bool) (elemSize : Nat) (j : Option Nat)
    (env : JniEnv) : JniEnv :=
  (ScopedArrayRO.construct kNullable elemSize env j).1.destruct
    (ScopedArrayRO.construct kNullable elemSize env j).2

/-- `n` repetitions of a read-only accessor lifetime over the same handle. -/
def iterLifecycleRO (kNullable : Bool) (elemSize : Nat) (j : Option Nat) :
    Nat → JniEnv → JniEnv
  | 0, env => env
  | n + 1, env => iterLifecycleRO kNullable elemSize j n
      (lifecycleRO kNullable elemSize j env)

/-- One full lifetime of a read-write accessor over handle `j` (with the
given indeterminate initial member values for the null-handle branch). -/
def lifecycleRW (j : Option Nat) (uninitPtr : RWPtr) (uninitSize : Int)
    (uninitView : List Int) (env : JniEnv) : JniEnv :=
  (ScopedArrayRW.construct env j uninitPtr uninitSize uninitView).1.destruct
    (ScopedArrayRW.construct env j uninitPtr uninitSize uninitView).2

/-- `n` repetitions of a read-write accessor lifetime over the same handle. -/
def iterLifecycleRW (j : Option Nat) (uninitPtr : RWPtr) (uninitSize : Int)
    (uninitView : List Int) : Nat → JniEnv → JniEnv
  | 0, env => env
  | n + 1, env => iterLifecycleRW j uninitPtr uninitSize uninitView n
      (lifecycleRW j uninitPtr uninitSize uninitView env)

/-- Number of pins one read-only accessor lifetime over handle `j` takes:
`0` on the null-handle and small-buffer paths, `1` on the pin path (the
branch condition is the constructor's own `mSize <= BUFFER_SIZE` test). -/
def roPinCount (kNullable : Bool) (elemSize : Nat) (env : JniEnv)
    (j : Option Nat) : Nat :=
  match j with
  | none => 0
  | some h =>
      if toSizeT kNullable ((env.lookupArr (some h)).length : Int) ≤
          BUFFER_SIZE elemSize then 0 else 1

/-- The observer `get() const` as a state transformer: result plus
post-call object state (the method body only reads `mRawArray`). -/
def ScopedArrayRO.callGet (a : ScopedArrayRO) : CPtr × ScopedArrayRO :=
  (a.get, a)

/-- The observer `getJavaArray() const` as a state transformer. -/
def ScopedArrayRO.callGetJavaArray (a : ScopedArrayRO) :
    Option Nat × ScopedArrayRO :=
  (a.getJavaArray, a)

/-- The observer `operator[] const` as a state transformer. -/
def ScopedArrayRO.callReadElem (a : ScopedArrayRO) (n : Nat) :
    Option Int × ScopedArrayRO :=
  (a.readElem n, a)

/-- The observer `begin() const` as a state transformer. -/
def ScopedArrayRO.callBegin (a : ScopedArrayRO) : CPtr × ScopedArrayRO :=
  (a.begin, a)

/-- The observer `end() const` as a state transformer. -/
def ScopedArrayRO.callEnd (a : ScopedArrayRO) : CPtr × ScopedArrayRO :=
  (a.endIter, a)

/-- The observer `size() const` as a state transformer. -/
def ScopedArrayRO.callSize (a : ScopedArrayRO) : Int × ScopedArrayRO :=
  (a.size, a)

/-- The observer `get()` of the read-write accessor as a state transformer. -/
def ScopedArrayRW.callGet (a : ScopedArrayRW) : CPtr × ScopedArrayRW :=
  (a.get, a)

/-- The observer `getJavaArray() const` of the read-write accessor as a
state transformer. -/
def ScopedArrayRW.callGetJavaArray (a : ScopedArrayRW) :
    Option Nat × ScopedArrayRW :=
  (a.getJavaArray, a)

/-- The read of `operator[]` of the read-write accessor as a state
transformer. -/
def ScopedArrayRW.callReadElem (a : ScopedArrayRW) (n : Nat) :
    Option Int × ScopedArrayRW :=
  (a.readElem n, a)

/-- The observer `begin()` of the read-write accessor as a state
transformer. -/
def ScopedArrayRW.callBegin (a : ScopedArrayRW) : CPtr × ScopedArrayRW :=
  (a.begin, a)

/-- The observer `end()` of the read-write accessor as a state
transformer. -/
def ScopedArrayRW.callEnd (a : ScopedArrayRW) : CPtr × ScopedArrayRW :=
  (a.endIter, a)

/-- The observer `size() const` of the read-write accessor as a state
transformer. -/
def ScopedArrayRW.callSize (a : ScopedArrayRW) : Int × ScopedArrayRW :=
  (a.size, a)

/-- A concrete runtime state holding a 3-element array at handle 0
(element size 4 → `BUFFER_SIZE = 256`, so 3 takes the small-buffer path). -/
def smallEnv : JniEnv :=
  ⟨fun i => if i = 0 then some [3, 1, 4] else none, 0, []⟩

/-- A concrete runtime state holding a 2000-element array at handle 0
(element size 1 → `BUFFER_SIZE = 1024`, so 2000 takes the pin path). -/
def largeEnv : JniEnv :=
  ⟨fun i => if i = 0 then some (List.replicate 2000 0) else none, 0, []⟩

/-! ### Helper lemmas -/

theorem lookupArr_mk (env : JniEnv) (np : Nat) (t : List JniCall)
    (oh : Option Nat) :
    (JniEnv.mk env.arrays np t).lookupArr oh = env.lookupArr oh := by
  cases oh <;> rfl

theorem toSizeT_eq_self (b : Bool) (v : Int) (h0 : 0 ≤ v) (h1 : v < 2 ^ 63) :
    toSizeT b v = v := by
  cases b with
  | false =>
      simp only [toSizeT, usizeOfInt, Bool.false_eq_true, if_false]
      exact Int.emod_eq_of_lt h0 (by linarith)
  | true =>
      simp only [toSizeT, ssizeOfInt, if_true]
      have h2 : (v + 2 ^ 63) % (2 ^ 64) = v + 2 ^ 63 :=
        Int.emod_eq_of_lt (by linarith) (by linarith)
      rw [h2]; ring

theorem usizeToNat_natCast (n : Nat) (h : (n : Int) < 2 ^ 64) :
    usizeToNat (n : Int) = n := by
  unfold usizeToNat
  rw [Int.emod_eq_of_lt (by positivity) h]
  exact Int.toNat_natCast n

/-- The constructor of `ScopedArrayRO`, evaluated on a null handle. -/
theorem constructRO_none (kNullable : Bool) (elemSize : Nat) (env : JniEnv) :
    ScopedArrayRO.construct kNullable elemSize env none =
      (⟨kNullable, none, .null, toSizeT kNullable (-1), []⟩,
       if kNullable then env else env.fatalError "javaArray is null") := rfl

/-- The constructor of `ScopedArrayRO`, evaluated on a non-null handle whose
length does not exceed `BUFFER_SIZE`: the small-buffer copy path. -/
theorem constructRO_some_small (kNullable : Bool) (elemSize : Nat) (env : JniEnv)
    (h : Nat) (hle : (env.lookupArr (some h)).length ≤ 1024 / elemSize) :
    ScopedArrayRO.construct kNullable elemSize env (some h) =
      (⟨kNullable, some h, .buffer, ((env.lookupArr (some h)).length : Int),
        env.lookupArr (some h)⟩,
       { env with trace := .getArrayRegion (some h) 0 (env.lookupArr (some h)).length ::
                           .getArrayLength (some h) :: env.trace }) := by
  have hlen1024 : (env.lookupArr (some h)).length ≤ 1024 :=
    le_trans hle (Nat.div_le_self _ _)
  have hsmall : ((env.lookupArr (some h)).length : Int) < 2 ^ 63 := by
    have hq : ((env.lookupArr (some h)).length : Int) ≤ 1024 := by exact_mod_cast hlen1024
    linarith
  have hsz : toSizeT kNullable ((env.lookupArr (some h)).length : Int) =
      ((env.lookupArr (some h)).length : Int) :=
    toSizeT_eq_self _ _ (by positivity) hsmall
  have hcond : ((env.lookupArr (some h)).length : Int) ≤ BUFFER_SIZE elemSize := by
    unfold BUFFER_SIZE; exact_mod_cast hle
  have hnat : usizeToNat ((env.lookupArr (some h)).length : Int) =
      (env.lookupArr (some h)).length :=
    usizeToNat_natCast _ (by linarith)
  simp only [ScopedArrayRO.construct, JniEnv.getArrayLength, lookupArr_mk, hsz]
  rw [if_pos hcond]
  simp only [JniEnv.getArrayRegion, lookupArr_mk, hnat, List.drop_zero, List.take_length]

/-- The constructor of `ScopedArrayRO`, evaluated on a non-null handle whose
length exceeds `BUFFER_SIZE` (and is a representable `jsize`): the pin
path. -/
theorem constructRO_some_large (kNullable : Bool) (elemSize : Nat) (env : JniEnv)
    (h : Nat) (hgt : 1024 / elemSize < (env.lookupArr (some h)).length)
    (hrep : (env.lookupArr (some h)).length < 2 ^ 31) :
    ScopedArrayRO.construct kNullable elemSize env (some h) =
      (⟨kNullable, some h, .pin env.nextPin, ((env.lookupArr (some h)).length : Int),
        env.lookupArr (some h)⟩,
       { env with nextPin := env.nextPin + 1,
                  trace := .getArrayElements (some h) env.nextPin ::
                           .getArrayLength (some h) :: env.trace }) := by
  have hsmall : ((env.lookupArr (some h)).length : Int) < 2 ^ 63 := by
    have hq : ((env.lookupArr (some h)).length : Int) < 2 ^ 31 := by exact_mod_cast hrep
    linarith
  have hsz : toSizeT kNullable ((env.lookupArr (some h)).length : Int) =
      ((env.lookupArr (some h)).length : Int) :=
    toSizeT_eq_self _ _ (by positivity) hsmall
  have hcond : ¬ ((env.lookupArr (some h)).length : Int) ≤ BUFFER_SIZE elemSize := by
    unfold BUFFER_SIZE; push_neg; exact_mod_cast hgt
  simp only [ScopedArrayRO.construct, JniEnv.getArrayLength, lookupArr_mk, hsz]
  rw [if_neg hcond]
  simp only [JniEnv.getArrayElements, lookupArr_mk]

/-- The constructor of `ScopedArrayRW`, evaluated on a null handle: only the
fatal-error call happens and the indeterminate member values persist. -/
theorem constructRW_none (env : JniEnv) (uninitPtr : RWPtr) (uninitSize : Int)
    (uninitView : List Int) :
    ScopedArrayRW.construct env none uninitPtr uninitSize uninitView =
      (⟨none, uninitPtr, uninitSize, uninitView⟩,
       env.fatalError "javaArray is null") := rfl

/-- The constructor of `ScopedArrayRW`, evaluated on a non-null handle:
length query then unconditional acquire. -/
theorem constructRW_some (env : JniEnv) (h : Nat) (uninitPtr : RWPtr)
    (uninitSize : Int) (uninitView : List Int) :
    ScopedArrayRW.construct env (some h) uninitPtr uninitSize uninitView =
      (⟨some h, .pin env.nextPin, ((env.lookupArr (some h)).length : Int),
        env.lookupArr (some h)⟩,
       { env with nextPin := env.nextPin + 1,
                  trace := .getArrayElements (some h) env.nextPin ::
                           .getArrayLength (some h) :: env.trace }) := rfl

/-! ### Claims -/

/-- Claim C1: for every non-null array handle whose foreign length is at
most `BUFFER_SIZE = 1024 / sizeof(JType)` (integer division), the read-only
constructor copies the full range into the embedded buffer via the
region-copy operation (one `getArrayRegion` call with start 0 and the full
length, and the view holds the whole contents) and sets the view pointer to
the embedded buffer; no acquire call is made, and the destructor changes
nothing (in particular it makes no release call). -/
theorem c1_small_buffer_copy (kNullable : Bool) (elemSize : Nat) (env : JniEnv)
    (h : Nat) (hle : (env.lookupArr (some h)).length ≤ 1024 / elemSize) :
    (ScopedArrayRO.construct kNullable elemSize env (some h)).1.mRawArray =
      RawPtr.buffer ∧
    (ScopedArrayRO.construct kNullable elemSize env (some h)).1.view =
      env.lookupArr (some h) ∧
    (ScopedArrayRO.construct kNullable elemSize env (some h)).2.trace =
      JniCall.getArrayRegion (some h) 0 (env.lookupArr (some h)).length ::
      JniCall.getArrayLength (some h) :: env.trace ∧
    acquires (ScopedArrayRO.construct kNullable elemSize env (some h)).2.trace =
      acquires env.trace ∧
    (ScopedArrayRO.construct kNullable elemSize env (some h)).1.destruct
        (ScopedArrayRO.construct kNullable elemSize env (some h)).2 =
      (ScopedArrayRO.construct kNullable elemSize env (some h)).2 := by
  rw [constructRO_some_small kNullable elemSize env h hle]
  refine ⟨rfl, rfl, rfl, ?_, rfl⟩
  simp [acquires, List.countP_cons]

/-- Witness for C1: a 3-element array with element size 4 (capacity 256)
takes the small-buffer path, makes no acquire call, and its destructor is a
no-op. -/
theorem c1_small_buffer_copy_witness :
    ((smallEnv.lookupArr (some 0)).length ≤ 1024 / 4) ∧
    ((ScopedArrayRO.construct false 4 smallEnv (some 0)).1.mRawArray =
      RawPtr.buffer ∧
    (ScopedArrayRO.construct false 4 smallEnv (some 0)).1.view =
      smallEnv.lookupArr (some 0) ∧
    (ScopedArrayRO.construct false 4 smallEnv (some 0)).2.trace =
      JniCall.getArrayRegion (some 0) 0 (smallEnv.lookupArr (some 0)).length ::
      JniCall.getArrayLength (some 0) :: smallEnv.trace ∧
    acquires (ScopedArrayRO.construct false 4 smallEnv (some 0)).2.trace =
      acquires smallEnv.trace ∧
    (ScopedArrayRO.construct false 4 smallEnv (some 0)).1.destruct
        (ScopedArrayRO.construct false 4 smallEnv (some 0)).2 =
      (ScopedArrayRO.construct false 4 smallEnv (some 0)).2) :=
  ⟨by decide, c1_small_buffer_copy false 4 smallEnv 0 (by decide)⟩

/-- Claim C2: for every non-null array handle whose foreign length exceeds
`BUFFER_SIZE` (and is a representable `jsize`), the read-only accessor's
view pointer equals the pin returned by the acquire operation, and on
destruction exactly one release call occurs, with mode `JNI_ABORT`, on that
same pin; the array store is left unchanged (nothing is committed back), and
no release happens before destruction. -/
theorem c2_large_pin_release_abort (kNullable : Bool) (elemSize : Nat)
    (env : JniEnv) (h : Nat)
    (hgt : 1024 / elemSize < (env.lookupArr (some h)).length)
    (hrep : (env.lookupArr (some h)).length < 2 ^ 31) :
    (ScopedArrayRO.construct kNullable elemSize env (some h)).1.mRawArray =
      RawPtr.pin env.nextPin ∧
    (ScopedArrayRO.construct kNullable elemSize env (some h)).2.trace =
      JniCall.getArrayElements (some h) env.nextPin ::
      JniCall.getArrayLength (some h) :: env.trace ∧
    releases (ScopedArrayRO.construct kNullable elemSize env (some h)).2.trace =
      releases env.trace ∧
    ((ScopedArrayRO.construct kNullable elemSize env (some h)).1.destruct
        (ScopedArrayRO.construct kNullable elemSize env (some h)).2).trace =
      JniCall.releaseArrayElements (some h) env.nextPin (env.lookupArr (some h))
          JNI_ABORT ::
      (ScopedArrayRO.construct kNullable elemSize env (some h)).2.trace ∧
    releases ((ScopedArrayRO.construct kNullable elemSize env (some h)).1.destruct
        (ScopedArrayRO.construct kNullable elemSize env (some h)).2).trace =
      releases env.trace + 1 ∧
    ((ScopedArrayRO.construct kNullable elemSize env (some h)).1.destruct
        (ScopedArrayRO.construct kNullable elemSize env (some h)).2).arrays =
      env.arrays := by
  rw [constructRO_some_large kNullable elemSize env h hgt hrep]
  refine ⟨rfl, rfl, ?_, rfl, ?_, ?_⟩
  · simp [releases, List.countP_cons]
  · simp [releases, List.countP_cons, ScopedArrayRO.destruct,
      JniEnv.releaseArrayElements]
  · simp [ScopedArrayRO.destruct, JniEnv.releaseArrayElements]

/-- Witness for C2: a 2000-element array with element size 1 (capacity
1024) takes the pin path; the pointer is pin 0, and destruction performs
exactly one `JNI_ABORT` release of that pin. -/
theorem c2_large_pin_release_abort_witness :
    (1024 / 1 < (largeEnv.lookupArr (some 0)).length) ∧
    ((largeEnv.lookupArr (some 0)).length < 2 ^ 31) ∧
    ((ScopedArrayRO.construct true 1 largeEnv (some 0)).1.mRawArray =
      RawPtr.pin largeEnv.nextPin ∧
    (ScopedArrayRO.construct true 1 largeEnv (some 0)).2.trace =
      JniCall.getArrayElements (some 0) largeEnv.nextPin ::
      JniCall.getArrayLength (some 0) :: largeEnv.trace ∧
    releases (ScopedArrayRO.construct true 1 largeEnv (some 0)).2.trace =
      releases largeEnv.trace ∧
    ((ScopedArrayRO.construct true 1 largeEnv (some 0)).1.destruct
        (ScopedArrayRO.construct true 1 largeEnv (some 0)).2).trace =
      JniCall.releaseArrayElements (some 0) largeEnv.nextPin
          (largeEnv.lookupArr (some 0)) JNI_ABORT ::
      (ScopedArrayRO.construct true 1 largeEnv (some 0)).2.trace ∧
    releases ((ScopedArrayRO.construct true 1 largeEnv (some 0)).1.destruct
        (ScopedArrayRO.construct true 1 largeEnv (some 0)).2).trace =
      releases largeEnv.trace + 1 ∧
    ((ScopedArrayRO.construct true 1 largeEnv (some 0)).1.destruct
        (ScopedArrayRO.construct true 1 largeEnv (some 0)).2).arrays =
      largeEnv.arrays) :=
  ⟨by norm_num [largeEnv, JniEnv.lookupArr],
   by norm_num [largeEnv, JniEnv.lookupArr],
   c2_large_pin_release_abort true 1 largeEnv 0
     (by norm_num [largeEnv, JniEnv.lookupArr])
     (by norm_num [largeEnv, JniEnv.lookupArr])⟩

/-- Claim C5: the nullable read-only variant constructed on a null handle
has `size() = -1`, `get() = null`, `begin() = end() = null`, and neither
construction nor destruction changes the foreign state at all (no
length-query, region-copy, acquire, release or fatal-error call). -/
theorem c5_nullable_null_no_calls (elemSize : Nat) (env : JniEnv) :
    (ScopedArrayRO.construct true elemSize env none).1.size = -1 ∧
    (ScopedArrayRO.construct true elemSize env none).1.get = CPtr.null ∧
    (ScopedArrayRO.construct true elemSize env none).1.begin = CPtr.null ∧
    (ScopedArrayRO.construct true elemSize env none).1.endIter = CPtr.null ∧
    (ScopedArrayRO.construct true elemSize env none).2 = env ∧
    (ScopedArrayRO.construct true elemSize env none).1.destruct
        (ScopedArrayRO.construct true elemSize env none).2 = env := by
  refine ⟨?_, rfl, rfl, ?_, rfl, rfl⟩
  · show toSizeT true (-1) = -1
    norm_num [toSizeT, ssizeOfInt]
  · show ScopedArrayRO.endIter _ = _
    simp [ScopedArrayRO.endIter, ScopedArrayRO.get, ScopedArrayRO.construct]

/-- Claim C8: the non-nullable read-only accessor constructed on a null
handle (in an execution where the fatal-error callback returns) stores the
`-1` sentinel into the unsigned `size_t` field, so `size()` returns
`2 ^ 64 - 1` (`SIZE_MAX`), a non-negative value indistinguishable from an
enormous valid count; the fatal callback is the only foreign call made. -/
theorem c8_sentinel_wraps_to_size_max (elemSize : Nat) (env : JniEnv) :
    (ScopedArrayRO.construct false elemSize env none).1.size = 2 ^ 64 - 1 ∧
    0 ≤ (ScopedArrayRO.construct false elemSize env none).1.size ∧
    (ScopedArrayRO.construct false elemSize env none).2.trace =
      JniCall.fatalErrorCall "javaArray is null" :: env.trace := by
  have hs : (ScopedArrayRO.construct false elemSize env none).1.size =
      2 ^ 64 - 1 := by
    show toSizeT false (-1) = 2 ^ 64 - 1
    norm_num [toSizeT, usizeOfInt, Int.emod_emod_of_dvd]
  exact ⟨hs, by rw [hs]; norm_num, rfl⟩

/-- Claim C3: the read-write accessor on any non-null handle (any element
count — there is no small-buffer fast path) makes exactly one acquire call
in the constructor, and its destructor makes exactly one release call with
mode `0` (writeback, not `JNI_ABORT`); a mutation written through the
mutable view is present in the buffer argument of that release call and is
committed back to the foreign array. -/
theorem c3_rw_acquire_writeback (env : JniEnv) (h : Nat) (p0 : RWPtr)
    (s0 : Int) (v0 : List Int) (n : Nat) (v : Int)
    (hn : n < (env.lookupArr (some h)).length) :
    (ScopedArrayRW.construct env (some h) p0 s0 v0).2.trace =
      JniCall.getArrayElements (some h) env.nextPin ::
      JniCall.getArrayLength (some h) :: env.trace ∧
    acquires (ScopedArrayRW.construct env (some h) p0 s0 v0).2.trace =
      acquires env.trace + 1 ∧
    releases (ScopedArrayRW.construct env (some h) p0 s0 v0).2.trace =
      releases env.trace ∧
    ((ScopedArrayRW.construct env (some h) p0 s0 v0).1.writeElem n v).map
        (fun a2 => (a2.destruct
          (ScopedArrayRW.construct env (some h) p0 s0 v0).2).trace) =
      some (JniCall.releaseArrayElements (some h) env.nextPin
              ((env.lookupArr (some h)).set n v) 0 ::
            (ScopedArrayRW.construct env (some h) p0 s0 v0).2.trace) ∧
    ((ScopedArrayRW.construct env (some h) p0 s0 v0).1.writeElem n v).map
        (fun a2 => releases (a2.destruct
          (ScopedArrayRW.construct env (some h) p0 s0 v0).2).trace) =
      some (releases env.trace + 1) ∧
    ((ScopedArrayRW.construct env (some h) p0 s0 v0).1.writeElem n v).map
        (fun a2 => a2.view[n]?) = some (some v) ∧
    ((ScopedArrayRW.construct env (some h) p0 s0 v0).1.writeElem n v).map
        (fun a2 => (a2.destruct
          (ScopedArrayRW.construct env (some h) p0 s0 v0).2).arrays h) =
      some (some ((env.lookupArr (some h)).set n v)) := by
  rw [constructRW_some env h p0 s0 v0]
  refine ⟨rfl, ?_, ?_, ?_, ?_, ?_, ?_⟩
  · simp [acquires, List.countP_cons]
  · simp [releases, List.countP_cons]
  · simp [ScopedArrayRW.writeElem, hn, ScopedArrayRW.destruct,
      JniEnv.releaseArrayElements]
  · simp [ScopedArrayRW.writeElem, hn, ScopedArrayRW.destruct,
      JniEnv.releaseArrayElements, releases, List.countP_cons]
  · simp [ScopedArrayRW.writeElem, hn, List.getElem?_set_self]
  · simp [ScopedArrayRW.writeElem, hn, ScopedArrayRW.destruct,
      JniEnv.releaseArrayElements, JNI_ABORT]

/-- Witness for C3: on the 3-element array the read-write accessor acquires
pin 0, the write of value 9 at index 1 succeeds, and destruction releases
once with mode 0 and the mutated buffer. -/
theorem c3_rw_acquire_writeback_witness :
    (1 < (smallEnv.lookupArr (some 0)).length) ∧
    ((ScopedArrayRW.construct smallEnv (some 0) RWPtr.null 0 []).2.trace =
      JniCall.getArrayElements (some 0) smallEnv.nextPin ::
      JniCall.getArrayLength (some 0) :: smallEnv.trace ∧
    acquires (ScopedArrayRW.construct smallEnv (some 0) RWPtr.null 0 []).2.trace =
      acquires smallEnv.trace + 1 ∧
    releases (ScopedArrayRW.construct smallEnv (some 0) RWPtr.null 0 []).2.trace =
      releases smallEnv.trace ∧
    ((ScopedArrayRW.construct smallEnv (some 0) RWPtr.null 0 []).1.writeElem 1 9).map
        (fun a2 => (a2.destruct
          (ScopedArrayRW.construct smallEnv (some 0) RWPtr.null 0 []).2).trace) =
      some (JniCall.releaseArrayElements (some 0) smallEnv.nextPin
              ((smallEnv.lookupArr (some 0)).set 1 9) 0 ::
            (ScopedArrayRW.construct smallEnv (some 0) RWPtr.null 0 []).2.trace) ∧
    ((ScopedArrayRW.construct smallEnv (some 0) RWPtr.null 0 []).1.writeElem 1 9).map
        (fun a2 => releases (a2.destruct
          (ScopedArrayRW.construct smallEnv (some 0) RWPtr.null 0 []).2).trace) =
      some (releases smallEnv.trace + 1) ∧
    ((ScopedArrayRW.construct smallEnv (some 0) RWPtr.null 0 []).1.writeElem 1 9).map
        (fun a2 => a2.view[1]?) = some (some 9) ∧
    ((ScopedArrayRW.construct smallEnv (some 0) RWPtr.null 0 []).1.writeElem 1 9).map
        (fun a2 => (a2.destruct
          (ScopedArrayRW.construct smallEnv (some 0) RWPtr.null 0 []).2).arrays 0) =
      some (some ((smallEnv.lookupArr (some 0)).set 1 9))) :=
  ⟨by decide, c3_rw_acquire_writeback smallEnv 0 RWPtr.null 0 [] 1 9 (by decide)⟩

/-- Counterexample to claim C4 as stated: the read-write accessor
constructed on a null handle does not set its members — with indeterminate
initial values `mRawArray = pin 5`, `mSize = 7` the constructor leaves the
view pointer non-null and the count at 7 (neither `-1` nor a wrap of it),
and if execution continues past the fatal callback the destructor then even
makes a release call on that indeterminate pointer. -/
theorem c4_counterexample :
    (ScopedArrayRW.construct smallEnv none (RWPtr.pin 5) 7 []).1.mRawArray ≠
      RWPtr.null ∧
    (ScopedArrayRW.construct smallEnv none (RWPtr.pin 5) 7 []).1.mSize = 7 ∧
    releases ((ScopedArrayRW.construct smallEnv none (RWPtr.pin 5) 7 []).1.destruct
        (ScopedArrayRW.construct smallEnv none (RWPtr.pin 5) 7 []).2).trace = 1 := by
  decide

/-- Claim C4 (amended): on a null handle where non-null is required the
fatal-error callback is invoked exactly once and no length-query, acquire
or release call is made by the constructor.  The non-nullable read-only
accessor furthermore leaves its fields safe-but-unusable (null view
pointer, wrapped `-1` sentinel count) and its destructor makes no call at
all; the read-write accessor, by contrast, leaves `mRawArray` and `mSize`
unassigned, so they keep their indeterminate pre-construction values. -/
theorem c4_null_required_fatal (elemSize : Nat) (env : JniEnv) (p0 : RWPtr)
    (s0 : Int) (v0 : List Int) :
    (ScopedArrayRO.construct false elemSize env none).1.mRawArray =
      RawPtr.null ∧
    (ScopedArrayRO.construct false elemSize env none).1.mSize = 2 ^ 64 - 1 ∧
    (ScopedArrayRO.construct false elemSize env none).2.trace =
      JniCall.fatalErrorCall "javaArray is null" :: env.trace ∧
    (ScopedArrayRO.construct false elemSize env none).1.destruct
        (ScopedArrayRO.construct false elemSize env none).2 =
      (ScopedArrayRO.construct false elemSize env none).2 ∧
    (ScopedArrayRW.construct env none p0 s0 v0).2.trace =
      JniCall.fatalErrorCall "javaArray is null" :: env.trace ∧
    (ScopedArrayRW.construct env none p0 s0 v0).1.mRawArray = p0 ∧
    (ScopedArrayRW.construct env none p0 s0 v0).1.mSize = s0 := by
  refine ⟨rfl, ?_, rfl, rfl, rfl, rfl, rfl⟩
  show toSizeT false (-1) = 2 ^ 64 - 1
  norm_num [toSizeT, usizeOfInt, Int.emod_emod_of_dvd]

/-- Counterexample to claim C6 as stated: a null-handle read-write
instance does not necessarily release nothing — with indeterminate
pre-construction pointer value `pin 5`, its lifetime performs zero acquire
calls yet one release call (of a pin that was never acquired). -/
theorem c6_counterexample :
    acquires (ScopedArrayRW.construct smallEnv none (RWPtr.pin 5) 7 []).2.trace =
      0 ∧
    releases ((ScopedArrayRW.construct smallEnv none (RWPtr.pin 5) 7 []).1.destruct
        (ScopedArrayRW.construct smallEnv none (RWPtr.pin 5) 7 []).2).trace = 1 := by
  decide

/-- Claim C6 (amended): over one whole lifetime, a pin is released exactly
once, in the destructor, with no release before destruction; embedded
buffer instances and null-handle read-only instances acquire and release
nothing.  A null-handle read-write instance acquires nothing, but (the
fields being left unassigned) its destructor performs one release call
exactly when the indeterminate pointer value it holds is non-null. -/
theorem c6_single_release_discipline (kNullable : Bool) (elemSize : Nat)
    (env : JniEnv) (h : Nat) (p0 : RWPtr) (s0 : Int) (v0 : List Int) :
    (acquires (ScopedArrayRO.construct kNullable elemSize env none).2.trace =
       acquires env.trace ∧
     releases ((ScopedArrayRO.construct kNullable elemSize env none).1.destruct
        (ScopedArrayRO.construct kNullable elemSize env none).2).trace =
       releases env.trace) ∧
    ((env.lookupArr (some h)).length ≤ 1024 / elemSize →
      acquires (ScopedArrayRO.construct kNullable elemSize env (some h)).2.trace =
        acquires env.trace ∧
      releases ((ScopedArrayRO.construct kNullable elemSize env (some h)).1.destruct
          (ScopedArrayRO.construct kNullable elemSize env (some h)).2).trace =
        releases env.trace) ∧
    (1024 / elemSize < (env.lookupArr (some h)).length →
     (env.lookupArr (some h)).length < 2 ^ 31 →
      acquires (ScopedArrayRO.construct kNullable elemSize env (some h)).2.trace =
        acquires env.trace + 1 ∧
      releases (ScopedArrayRO.construct kNullable elemSize env (some h)).2.trace =
        releases env.trace ∧
      releases ((ScopedArrayRO.construct kNullable elemSize env (some h)).1.destruct
          (ScopedArrayRO.construct kNullable elemSize env (some h)).2).trace =
        releases env.trace + 1 ∧
      ((ScopedArrayRO.construct kNullable elemSize env (some h)).1.destruct
          (ScopedArrayRO.construct kNullable elemSize env (some h)).2).trace =
        JniCall.releaseArrayElements (some h) env.nextPin (env.lookupArr (some h))
            JNI_ABORT ::
        (ScopedArrayRO.construct kNullable elemSize env (some h)).2.trace) ∧
    (acquires (ScopedArrayRW.construct env (some h) p0 s0 v0).2.trace =
       acquires env.trace + 1 ∧
     releases (ScopedArrayRW.construct env (some h) p0 s0 v0).2.trace =
       releases env.trace ∧
     releases ((ScopedArrayRW.construct env (some h) p0 s0 v0).1.destruct
        (ScopedArrayRW.construct env (some h) p0 s0 v0).2).trace =
       releases env.trace + 1 ∧
     ((ScopedArrayRW.construct env (some h) p0 s0 v0).1.destruct
        (ScopedArrayRW.construct env (some h) p0 s0 v0).2).trace =
       JniCall.releaseArrayElements (some h) env.nextPin (env.lookupArr (some h))
           0 ::
       (ScopedArrayRW.construct env (some h) p0 s0 v0).2.trace) ∧
    (acquires (ScopedArrayRW.construct env none p0 s0 v0).2.trace =
       acquires env.trace ∧
     releases ((ScopedArrayRW.construct env none p0 s0 v0).1.destruct
        (ScopedArrayRW.construct env none p0 s0 v0).2).trace =
       releases env.trace + (if p0 = RWPtr.null then 0 else 1)) := by
  refine ⟨⟨?_, ?_⟩, ?_, ?_, ?_, ?_, ?_⟩
  · cases kNullable <;>
      simp [ScopedArrayRO.construct, JniEnv.fatalError, acquires, List.countP_cons]
  · cases kNullable <;>
      simp [ScopedArrayRO.construct, ScopedArrayRO.destruct, JniEnv.fatalError,
        releases, List.countP_cons]
  · intro hle
    rw [constructRO_some_small kNullable elemSize env h hle]
    constructor
    · simp [acquires, List.countP_cons]
    · simp [ScopedArrayRO.destruct, releases, List.countP_cons]
  · intro hgt hrep
    rw [constructRO_some_large kNullable elemSize env h hgt hrep]
    refine ⟨?_, ?_, ?_, rfl⟩
    · simp [acquires, List.countP_cons]
    · simp [releases, List.countP_cons]
    · simp [ScopedArrayRO.destruct, JniEnv.releaseArrayElements, releases,
        List.countP_cons]
  · rw [constructRW_some env h p0 s0 v0]
    refine ⟨?_, ?_, ?_, rfl⟩
    · simp [acquires, List.countP_cons]
    · simp [releases, List.countP_cons]
    · simp [ScopedArrayRW.destruct, JniEnv.releaseArrayElements, releases,
        List.countP_cons]
  · simp [ScopedArrayRW.construct, JniEnv.fatalError, acquires, List.countP_cons]
  · cases p0 <;>
      simp [ScopedArrayRW.construct, ScopedArrayRW.destruct, JniEnv.fatalError,
        JniEnv.releaseArrayElements, releases, List.countP_cons]

/-- Witness for C6: the small-buffer branch at the 3-element array acquires
and releases nothing; the pin branch at the 2000-element array acquires
once and releases exactly once, at destruction, with `JNI_ABORT`. -/
theorem c6_single_release_discipline_witness :
    (acquires (ScopedArrayRO.construct false 4 smallEnv (some 0)).2.trace =
       acquires smallEnv.trace ∧
     releases ((ScopedArrayRO.construct false 4 smallEnv (some 0)).1.destruct
        (ScopedArrayRO.construct false 4 smallEnv (some 0)).2).trace =
       releases smallEnv.trace) ∧
    (acquires (ScopedArrayRO.construct true 1 largeEnv (some 0)).2.trace =
       acquires largeEnv.trace + 1 ∧
     releases (ScopedArrayRO.construct true 1 largeEnv (some 0)).2.trace =
       releases largeEnv.trace ∧
     releases ((ScopedArrayRO.construct true 1 largeEnv (some 0)).1.destruct
        (ScopedArrayRO.construct true 1 largeEnv (some 0)).2).trace =
       releases largeEnv.trace + 1 ∧
     ((ScopedArrayRO.construct true 1 largeEnv (some 0)).1.destruct
        (ScopedArrayRO.construct true 1 largeEnv (some 0)).2).trace =
       JniCall.releaseArrayElements (some 0) largeEnv.nextPin
           (largeEnv.lookupArr (some 0)) JNI_ABORT ::
       (ScopedArrayRO.construct true 1 largeEnv (some 0)).2.trace) :=
  ⟨(c6_single_release_discipline false 4 smallEnv 0 RWPtr.null 0 []).2.1
     (by decide),
   (c6_single_release_discipline true 1 largeEnv 0 RWPtr.null 0 []).2.2.1
     (by norm_num [largeEnv, JniEnv.lookupArr])
     (by norm_num [largeEnv, JniEnv.lookupArr])⟩

theorem lifecycleRO_arrays (kNullable : Bool) (elemSize : Nat) (j : Option Nat)
    (env : JniEnv) :
    (lifecycleRO kNullable elemSize j env).arrays = env.arrays := by
  cases j with
  | none => cases kNullable <;> rfl
  | some h =>
      by_cases hc : toSizeT kNullable ((env.lookupArr (some h)).length : Int) ≤
          BUFFER_SIZE elemSize
      · simp [lifecycleRO, ScopedArrayRO.construct, JniEnv.getArrayLength,
          lookupArr_mk, hc, JniEnv.getArrayRegion, ScopedArrayRO.destruct]
      · simp [lifecycleRO, ScopedArrayRO.construct, JniEnv.getArrayLength,
          lookupArr_mk, hc, JniEnv.getArrayElements, ScopedArrayRO.destruct,
          JniEnv.releaseArrayElements]

theorem lifecycleRO_counts (kNullable : Bool) (elemSize : Nat) (j : Option Nat)
    (env : JniEnv) :
    acquires (lifecycleRO kNullable elemSize j env).trace =
      acquires env.trace + roPinCount kNullable elemSize env j ∧
    releases (lifecycleRO kNullable elemSize j env).trace =
      releases env.trace + roPinCount kNullable elemSize env j := by
  cases j with
  | none =>
      cases kNullable <;>
        simp [lifecycleRO, ScopedArrayRO.construct, ScopedArrayRO.destruct,
          JniEnv.fatalError, roPinCount, acquires, releases, List.countP_cons]
  | some h =>
      by_cases hc : toSizeT kNullable ((env.lookupArr (some h)).length : Int) ≤
          BUFFER_SIZE elemSize
      · simp [lifecycleRO, ScopedArrayRO.construct, JniEnv.getArrayLength,
          lookupArr_mk, hc, JniEnv.getArrayRegion, ScopedArrayRO.destruct,
          roPinCount, acquires, releases, List.countP_cons]
      · simp [lifecycleRO, ScopedArrayRO.construct, JniEnv.getArrayLength,
          lookupArr_mk, hc, JniEnv.getArrayElements, ScopedArrayRO.destruct,
          JniEnv.releaseArrayElements, roPinCount, acquires, releases,
          List.countP_cons]

theorem roPinCount_congr (kNullable : Bool) (elemSize : Nat)
    (env env2 : JniEnv) (j : Option Nat) (ha : env2.arrays = env.arrays) :
    roPinCount kNullable elemSize env2 j = roPinCount kNullable elemSize env j := by
  cases j <;> simp [roPinCount, JniEnv.lookupArr, ha]

theorem lifecycleRW_some_arrays (env : JniEnv) (h : Nat) (l : List Int)
    (hal : env.arrays h = some l) (p0 : RWPtr) (s0 : Int) (v0 : List Int) :
    (lifecycleRW (some h) p0 s0 v0 env).arrays = env.arrays := by
  have hw : (lifecycleRW (some h) p0 s0 v0 env).arrays =
      fun i => if i = h then some (env.lookupArr (some h)) else env.arrays i := by
    simp [lifecycleRW, ScopedArrayRW.construct, JniEnv.getArrayLength,
      JniEnv.getArrayElements, lookupArr_mk, ScopedArrayRW.destruct,
      JniEnv.releaseArrayElements, JNI_ABORT]
  rw [hw]
  funext i
  by_cases hi : i = h
  · subst hi; simp [JniEnv.lookupArr, hal]
  · simp [hi]

theorem lifecycleRW_some_counts (env : JniEnv) (h : Nat) (p0 : RWPtr)
    (s0 : Int) (v0 : List Int) :
    acquires (lifecycleRW (some h) p0 s0 v0 env).trace = acquires env.trace + 1 ∧
    releases (lifecycleRW (some h) p0 s0 v0 env).trace = releases env.trace + 1 := by
  constructor <;>
    simp [lifecycleRW, ScopedArrayRW.construct, JniEnv.getArrayLength,
      JniEnv.getArrayElements, ScopedArrayRW.destruct,
      JniEnv.releaseArrayElements, acquires, releases, List.countP_cons]

theorem iterRO_counts (kNullable : Bool) (elemSize : Nat) (j : Option Nat)
    (n : Nat) (env : JniEnv) :
    acquires (iterLifecycleRO kNullable elemSize j n env).trace =
      acquires env.trace + n * roPinCount kNullable elemSize env j ∧
    releases (iterLifecycleRO kNullable elemSize j n env).trace =
      releases env.trace + n * roPinCount kNullable elemSize env j := by
  induction n generalizing env with
  | zero => simp [iterLifecycleRO]
  | succ n ih =>
      have harr := lifecycleRO_arrays kNullable elemSize j env
      obtain ⟨ha1, hr1⟩ := lifecycleRO_counts kNullable elemSize j env
      obtain ⟨ha2, hr2⟩ := ih (lifecycleRO kNullable elemSize j env)
      have hcongr := roPinCount_congr kNullable elemSize env
        (lifecycleRO kNullable elemSize j env) j harr
      have hstep : iterLifecycleRO kNullable elemSize j (n + 1) env =
          iterLifecycleRO kNullable elemSize j n
            (lifecycleRO kNullable elemSize j env) := rfl
      constructor
      · rw [hstep, ha2, ha1, hcongr]; ring
      · rw [hstep, hr2, hr1, hcongr]; ring

theorem iterRW_counts (h : Nat) (p0 : RWPtr) (s0 : Int) (v0 : List Int)
    (l : List Int) (n : Nat) (env : JniEnv) (hal : env.arrays h = some l) :
    acquires (iterLifecycleRW (some h) p0 s0 v0 n env).trace =
      acquires env.trace + n ∧
    releases (iterLifecycleRW (some h) p0 s0 v0 n env).trace =
      releases env.trace + n := by
  induction n generalizing env with
  | zero => simp [iterLifecycleRW]
  | succ n ih =>
      have harr := lifecycleRW_some_arrays env h l hal p0 s0 v0
      obtain ⟨ha1, hr1⟩ := lifecycleRW_some_counts env h p0 s0 v0
      have halnew : (lifecycleRW (some h) p0 s0 v0 env).arrays h = some l := by
        rw [harr]; exact hal
      obtain ⟨ha2, hr2⟩ := ih (lifecycleRW (some h) p0 s0 v0 env) halnew
      have hstep : iterLifecycleRW (some h) p0 s0 v0 (n + 1) env =
          iterLifecycleRW (some h) p0 s0 v0 n
            (lifecycleRW (some h) p0 s0 v0 env) := rfl
      constructor
      · rw [hstep, ha2, ha1]; ring
      · rw [hstep, hr2, hr1]; ring

/-- Counterexample to claim C7 as stated: a single construct-and-destruct
repetition of the read-write accessor over the null handle, with
indeterminate pointer value `pin 5`, yields 0 acquire calls but 1 release
call — the two counts are not equal within the repetition. -/
theorem c7_counterexample :
    acquires (iterLifecycleRW none (RWPtr.pin 5) 7 [] 1 smallEnv).trace = 0 ∧
    releases (iterLifecycleRW none (RWPtr.pin 5) 7 [] 1 smallEnv).trace = 1 := by
  decide

/-- Claim C7 (amended): repeated construct-and-destruct lifetimes over the
same handle add identical acquire and release counts on each repetition,
and the two counts agree within each repetition — for the read-only
accessor over any handle (`n` repetitions add exactly `n * roPinCount`
each), and for the read-write accessor over any non-null handle bound to
an array (`n` repetitions add exactly `n` each).  (The read-write accessor
over the null handle is excluded: see the counterexample.) -/
theorem c7_repeated_lifecycles_balanced (kNullable : Bool) (elemSize : Nat)
    (env : JniEnv) (j : Option Nat) (h : Nat) (l : List Int)
    (hal : env.arrays h = some l) (p0 : RWPtr) (s0 : Int) (v0 : List Int)
    (n : Nat) :
    acquires (iterLifecycleRO kNullable elemSize j n env).trace =
      acquires env.trace + n * roPinCount kNullable elemSize env j ∧
    releases (iterLifecycleRO kNullable elemSize j n env).trace =
      releases env.trace + n * roPinCount kNullable elemSize env j ∧
    acquires (iterLifecycleRW (some h) p0 s0 v0 n env).trace =
      acquires env.trace + n ∧
    releases (iterLifecycleRW (some h) p0 s0 v0 n env).trace =
      releases env.trace + n :=
  ⟨(iterRO_counts kNullable elemSize j n env).1,
   (iterRO_counts kNullable elemSize j n env).2,
   (iterRW_counts h p0 s0 v0 l n env hal).1,
   (iterRW_counts h p0 s0 v0 l n env hal).2⟩

/-- Witness for C7: two repetitions over the 3-element array at handle 0 —
the read-only accessor (element size 4, small-buffer path) adds
`2 * roPinCount = 0` acquires and releases, the read-write accessor adds
exactly 2 of each. -/
theorem c7_repeated_lifecycles_balanced_witness :
    smallEnv.arrays 0 = some [3, 1, 4] ∧
    (acquires (iterLifecycleRO false 4 (some 0) 2 smallEnv).trace =
      acquires smallEnv.trace + 2 * roPinCount false 4 smallEnv (some 0) ∧
    releases (iterLifecycleRO false 4 (some 0) 2 smallEnv).trace =
      releases smallEnv.trace + 2 * roPinCount false 4 smallEnv (some 0) ∧
    acquires (iterLifecycleRW (some 0) RWPtr.null 0 [] 2 smallEnv).trace =
      acquires smallEnv.trace + 2 ∧
    releases (iterLifecycleRW (some 0) RWPtr.null 0 [] 2 smallEnv).trace =
      releases smallEnv.trace + 2) :=
  ⟨by decide,
   c7_repeated_lifecycles_balanced false 4 smallEnv (some 0) 0 [3, 1, 4]
     (by decide) RWPtr.null 0 [] 2⟩

/-- Claim C9: indexed access (`operator[]`) performs no null check and no
bounds check; it is well defined exactly under the precondition "held
pointer non-null and index below the element count".  For instances built
on a non-null handle the pointer is non-null and in-bounds accesses (reads
on both accessors, writes on the read-write one) succeed, while accesses at
or beyond the element count fall into the embedding's guard (`none`); for
instances whose pointer is null every access falls into the guard. -/
theorem c9_index_requires_bounds (kNullable : Bool) (elemSize : Nat)
    (env : JniEnv) (h : Nat) (n : Nat) (v : Int) (s0 : Int) (v0 : List Int) :
    ((ScopedArrayRO.construct kNullable elemSize env (some h)).1.mRawArray ≠
      RawPtr.null) ∧
    (n < (env.lookupArr (some h)).length →
     (env.lookupArr (some h)).length < 2 ^ 31 →
      ((ScopedArrayRO.construct kNullable elemSize env (some h)).1.readElem
        n).isSome) ∧
    ((env.lookupArr (some h)).length ≤ n →
      (ScopedArrayRO.construct kNullable elemSize env (some h)).1.readElem n =
        none) ∧
    ((ScopedArrayRO.construct kNullable elemSize env none).1.readElem n =
      none) ∧
    (n < (env.lookupArr (some h)).length →
      ((ScopedArrayRW.construct env (some h) RWPtr.null s0 v0).1.readElem
        n).isSome ∧
      ((ScopedArrayRW.construct env (some h) RWPtr.null s0 v0).1.writeElem
        n v).isSome) ∧
    ((env.lookupArr (some h)).length ≤ n →
      (ScopedArrayRW.construct env (some h) RWPtr.null s0 v0).1.readElem n =
        none ∧
      (ScopedArrayRW.construct env (some h) RWPtr.null s0 v0).1.writeElem n v =
        none) ∧
    ((ScopedArrayRW.construct env none RWPtr.null s0 v0).1.readElem n = none ∧
     (ScopedArrayRW.construct env none RWPtr.null s0 v0).1.writeElem n v =
       none) := by
  refine ⟨?_, ?_, ?_, rfl, ?_, ?_, rfl, rfl⟩
  · simp only [ScopedArrayRO.construct, JniEnv.getArrayLength, lookupArr_mk]
    split <;> simp
  · intro hlt hrep
    by_cases hc : (env.lookupArr (some h)).length ≤ 1024 / elemSize
    · rw [constructRO_some_small kNullable elemSize env h hc]
      simp [ScopedArrayRO.readElem, List.getElem?_eq_getElem hlt]
    · push_neg at hc
      rw [constructRO_some_large kNullable elemSize env h hc hrep]
      simp [ScopedArrayRO.readElem, List.getElem?_eq_getElem hlt]
  · intro hge
    simp only [ScopedArrayRO.construct, JniEnv.getArrayLength,
      JniEnv.getArrayRegion, lookupArr_mk]
    split
    · simp only [ScopedArrayRO.readElem, List.drop_zero]
      exact List.getElem?_eq_none
        (le_trans (by simp [List.length_take]) hge)
    · simp only [ScopedArrayRO.readElem]
      exact List.getElem?_eq_none hge
  · intro hlt
    rw [constructRW_some env h RWPtr.null s0 v0]
    constructor
    · simp [ScopedArrayRW.readElem, List.getElem?_eq_getElem hlt]
    · simp [ScopedArrayRW.writeElem, hlt]
  · intro hge
    rw [constructRW_some env h RWPtr.null s0 v0]
    constructor
    · simp only [ScopedArrayRW.readElem]
      exact List.getElem?_eq_none hge
    · simp [ScopedArrayRW.writeElem, Nat.not_lt.mpr hge]

/-- Witness for C9: on the 3-element array, index 1 is readable and
writable, index 5 reads and writes to the out-of-range guard. -/
theorem c9_index_requires_bounds_witness :
    (1 < (smallEnv.lookupArr (some 0)).length ∧
     ((ScopedArrayRO.construct false 4 smallEnv (some 0)).1.readElem 1).isSome ∧
     ((ScopedArrayRW.construct smallEnv (some 0) RWPtr.null 0 []).1.writeElem
       1 9).isSome) ∧
    ((smallEnv.lookupArr (some 0)).length ≤ 5 ∧
     (ScopedArrayRO.construct false 4 smallEnv (some 0)).1.readElem 5 = none ∧
     (ScopedArrayRW.construct smallEnv (some 0) RWPtr.null 0 []).1.writeElem
       5 9 = none) :=
  ⟨⟨by decide,
    (c9_index_requires_bounds false 4 smallEnv 0 1 9 0 []).2.1 (by decide)
      (by decide),
    ((c9_index_requires_bounds false 4 smallEnv 0 1 9 0 []).2.2.2.2.1
      (by decide)).2⟩,
   ⟨by decide,
    (c9_index_requires_bounds false 4 smallEnv 0 5 9 0 []).2.2.1 (by decide),
    ((c9_index_requires_bounds false 4 smallEnv 0 5 9 0 []).2.2.2.2.2.1
      (by decide)).2⟩⟩

/-- Claim C10: every observer (`get`, `getJavaArray`, `operator[]` read,
`begin`, `end`, `size`) leaves the accessor's stored state unchanged, on
both accessors and on any instance; and `getJavaArray()` returns exactly
the handle supplied at construction, null included. -/
theorem c10_observers_pure (kNullable : Bool) (elemSize : Nat) (env : JniEnv)
    (j : Option Nat) (p0 : RWPtr) (s0 : Int) (v0 : List Int) (n : Nat) :
    ((ScopedArrayRO.construct kNullable elemSize env j).1.callGetJavaArray.1 =
      j) ∧
    ((ScopedArrayRW.construct env j p0 s0 v0).1.callGetJavaArray.1 = j) ∧
    (∀ a : ScopedArrayRO, a.callGet.2 = a ∧ a.callGetJavaArray.2 = a ∧
      (a.callReadElem n).2 = a ∧ a.callBegin.2 = a ∧ a.callEnd.2 = a ∧
      a.callSize.2 = a) ∧
    (∀ a : ScopedArrayRW, a.callGet.2 = a ∧ a.callGetJavaArray.2 = a ∧
      (a.callReadElem n).2 = a ∧ a.callBegin.2 = a ∧ a.callEnd.2 = a ∧
      a.callSize.2 = a) := by
  refine ⟨?_, ?_, fun a => ⟨rfl, rfl, rfl, rfl, rfl, rfl⟩,
    fun a => ⟨rfl, rfl, rfl, rfl, rfl, rfl⟩⟩
  · cases j with
    | none => rfl
    | some h =>
        simp only [ScopedArrayRO.construct, JniEnv.getArrayLength, lookupArr_mk]
        split <;> rfl
  · cases j with
    | none => rfl
    | some h => rfl
